import Mathlib

/-!
Shallow embedding of `temp_icons/generate_icons.py`: a one-shot batch that
renders 8 square RGBA placeholder icons, each an opaque black rounded
rectangle with a letter "C" drawn by a per-scanline gradient loop, and saves
them under `icons/`.

Python arithmetic is embedded as follows: Python `int()` applied to a float
is truncation toward zero (`pyInt` on ℚ); Python `//` on integers is floor
division (`Int.fdiv`); the single float constant `0.7` whose rounding error
is observable is embedded as the IEEE-754 binary64 value nearest 0.7, and
the product `size * 0.7` is rounded back to binary64 (round to nearest,
ties to even) before truncation, exactly as CPython evaluates
`int(size * 0.7)`.  All the gradient constants (2, 0.5, 20, 150, 100, 255,
170, 85) are exactly representable binary64 values, so the gradient ramp is
embedded over ℚ, matching the spec's real-valued description of the
piecewise formulas.

Effects of the PIL library that are outside this repository (which pixels a
rendered glyph covers, the measured text size, availability of the font and
of the `textsize` API, rasterization of the rounded rectangle) are
parameters of the embedding, collected in `Env`; everything computed by the
script itself is embedded concretely.
-/

namespace GenerateIcons

/-- An RGB fill color: the `(r, g, b)` triple passed to `draw.text`
(alpha is the constant 255 throughout the script and carried by the image
mode, so it is not tracked per pixel). -/
structure Color where
  r : Int
  g : Int
  b : Int
deriving DecidableEq, Repr

/-- Python `int()` on a real-valued argument: truncation toward zero. -/
def pyInt (q : ℚ) : Int := if 0 ≤ q then ⌊q⌋ else ⌈q⌉

/-- The gradient color computation from the body of the scanline loop
(source lines 46–58): pink→orange for `progress < 0.5`, orange→green
otherwise. -/
def gradientColor (progress : ℚ) : Color :=
  if progress < 0.5 then
    { r := pyInt (255 - progress * 2 * 0)
      g := pyInt (20 + progress * 2 * 150)
      b := pyInt (100 - progress * 2 * 100) }
  else
    let adjusted_progress := (progress - 0.5) * 2
    { r := pyInt (255 - adjusted_progress * 255)
      g := pyInt (170 + adjusted_progress * 85)
      b := pyInt (0 + adjusted_progress * 150) }

/-- The real-valued (pre-truncation) red formula of the `progress < 0.5`
branch, `255 - progress * 2 * 0`. -/
def pinkToOrangeR (progress : ℚ) : ℚ := 255 - progress * 2 * 0

/-- The real-valued (pre-truncation) green formula of the `progress < 0.5`
branch, `20 + progress * 2 * 150`. -/
def pinkToOrangeG (progress : ℚ) : ℚ := 20 + progress * 2 * 150

/-- The real-valued (pre-truncation) blue formula of the `progress < 0.5`
branch, `100 - progress * 2 * 100`. -/
def pinkToOrangeB (progress : ℚ) : ℚ := 100 - progress * 2 * 100

/-- The significand of the IEEE-754 binary64 value nearest `0.7`, scaled by
`2^53`: the Python literal `0.7` denotes `doubleOfSeven / 2^53`. -/
def doubleOfSeven : Nat := 6305039478318694

/-- Fuel-driven floor of the base-2 logarithm (structural recursion so that
it evaluates inside the kernel); 64 units of fuel cover every value that
arises here. -/
def log2fuel : Nat → Nat → Nat
  | 0, _ => 0
  | fuel + 1, n => if n < 2 then 0 else log2fuel fuel (n / 2) + 1

/-- Round a nonnegative value given in units of `2^-53` to the IEEE-754
binary64 grid (round to nearest, ties to even).  A value below `2^53` has at
most 53 significant bits and is exact; otherwise the grid spacing in these
units is `2^(e-52)` where `e` is the exponent of the value. -/
def roundToDouble (P : Nat) : Nat :=
  let e := log2fuel 64 P
  if e ≤ 52 then P
  else
    let G := 2 ^ (e - 52)
    let q := P / G
    let r := P % G
    if r * 2 < G then q * G
    else if G < r * 2 then (q + 1) * G
    else if q % 2 = 0 then q * G else (q + 1) * G

/-- `font_size = int(size * 0.7)` (source line 31) under CPython float
semantics: the exact product of `size` with the double `0.7` is rounded to
binary64, then truncated toward zero. -/
def fontSize (size : Nat) : Nat := roundToDouble (size * doubleOfSeven) / 2 ^ 53

/-- A PIL font object: either the named truetype font at a point size, or
the library's default font. -/
inductive Font
  | truetype (name : String) (pointSize : Nat)
  | default
deriving DecidableEq, Repr

/-- The error raised by `ImageFont.truetype` when the font file is absent. -/
inductive PILError
  | ioError
deriving DecidableEq, Repr

/-- `ImageFont.truetype(name, font_size)`: succeeds iff the named font is
available in the environment, else raises `IOError`. -/
def truetypeLoad (available : Bool) (name : String) (font_size : Nat) :
    Except PILError Font :=
  if available then .ok (.truetype name font_size) else .error .ioError

/-- The try/except block of source lines 32–36: attempt to load
`"Arial.ttf"`, falling back to `ImageFont.load_default()` on `IOError`. -/
def resolveFont (available : Bool) (font_size : Nat) : Font :=
  match truetypeLoad available "Arial.ttf" font_size with
  | .ok f => f
  | .error _ => Font.default

/-- A raster image: mode string, dimensions, and a pixel map (coordinates
are integers since a computed draw position may be negative; PIL clips). -/
structure Image where
  mode : String
  width : Nat
  height : Nat
  pixel : Int × Int → Color

/-- `Image.new(mode, (w, h), color)`. -/
def imageNew (mode : String) (w h : Nat) (c : Color) : Image :=
  { mode := mode, width := w, height := h, pixel := fun _ => c }

/-- An opaque PIL draw call that overwrites every pixel of a region with a
single fill color (this is how `draw.text` and `draw.rounded_rectangle`
deposit an opaque fill: each call fully overwrites the pixels it covers). -/
def drawFill (region : Int × Int → Bool) (fill : Color) (img : Image) : Image :=
  { img with pixel := fun p => if region p then fill else img.pixel p }

/-- The PIL-internal behavior the script depends on but does not define:
which pixels a draw call covers, measured text sizes, and resource
availability. -/
structure Env where
  arialAvailable : Bool
  hasTextsize : Bool
  measuredSize : Font → Nat × Nat
  glyphMask : Font → Int × Int → Int × Int → Bool
  roundedRegion : Nat → Nat → Int × Int → Bool

/-- Source line 40: `draw.textsize(text, font=font) if hasattr(draw,
'textsize') else (font_size, font_size)`. -/
def textDims (env : Env) (font_size : Nat) (font : Font) : Nat × Nat :=
  if env.hasTextsize then env.measuredSize font else (font_size, font_size)

/-- Source line 41: `position = ((size - text_width) // 2,
(size - text_height) // 2)` — Python `//` is floor division. -/
def position (size text_width text_height : Int) : Int × Int :=
  ((size - text_width).fdiv 2, (size - text_height).fdiv 2)

/-- The per-scanline gradient loop of source lines 44–59: for each `y` in
`range(position[1], position[1] + text_height)`, compute
`progress = (y - position[1]) / text_height` and redraw the whole glyph
(the pixels of `mask`) in the single color `gradientColor progress`. -/
def gradientTextLoop (mask : Int × Int → Bool) (y0 : Int) (text_height : Nat)
    (img : Image) : Image :=
  ((List.range text_height).map (fun k : Nat => y0 + (k : Int))).foldl
    (fun im (y : Int) =>
      drawFill mask (gradientColor (((y : ℚ) - (y0 : ℚ)) / (text_height : ℚ))) im)
    img

/-- One iteration of the batch loop (source lines 20–62): render the icon
of the given size. -/
def renderIcon (env : Env) (size : Nat) : Image :=
  let img := imageNew "RGBA" size size ⟨0, 0, 0⟩
  let corner_radius := size / 5
  let img1 := drawFill (env.roundedRegion size corner_radius) ⟨0, 0, 0⟩ img
  let font_size := fontSize size
  let font := resolveFont env.arialAvailable font_size
  let dims := textDims env font_size font
  let pos := position (size : Int) (dims.1 : Int) (dims.2 : Int)
  gradientTextLoop (env.glyphMask font pos) pos.2 dims.2 img1

/-- The hard-coded ordered icon list of source lines 8–17 (a Python dict
literal; iteration order is insertion order). -/
def icon_sizes : List (String × Nat) :=
  [("Icon-40.png", 40), ("Icon-60.png", 60), ("Icon-58.png", 58),
   ("Icon-87.png", 87), ("Icon-80.png", 80), ("Icon-120.png", 120),
   ("Icon-180.png", 180), ("Icon-1024.png", 1024)]

/-- The full batch: for each `(icon_name, size)` pair in order, render the
icon and save it as `icons/<icon_name>` (source lines 20–62); the result is
the ordered list of written files. -/
def generateIcons (env : Env) : List (String × Image) :=
  icon_sizes.map (fun pr => ("icons/" ++ pr.1, renderIcon env pr.2))

/-- A concrete PIL environment with neither the named font nor the
`textsize` measurement API available; used to instantiate the error-handling
statements at a specific input. -/
def envNoFontNoMeasure : Env :=
  { arialAvailable := false
    hasTextsize := false
    measuredSize := fun _ => (0, 0)
    glyphMask := fun _ _ _ => false
    roundedRegion := fun _ _ _ => false }

/-- A concrete PIL environment whose measurement API reports a glyph of
width 5 and height 0; used to instantiate the zero-height statements at a
specific input. -/
def envZeroHeight : Env :=
  { arialAvailable := true
    hasTextsize := true
    measuredSize := fun _ => (5, 0)
    glyphMask := fun _ _ _ => false
    roundedRegion := fun _ _ _ => false }

/-! ### Helper lemmas -/

lemma pyInt_eq_floor {q : ℚ} (h : 0 ≤ q) : pyInt q = ⌊q⌋ := by
  simp [pyInt, h]

lemma pyInt_bounds {q : ℚ} {lo hi : ℤ} (h0 : (lo : ℚ) ≤ q) (h1 : q ≤ (hi : ℚ)) :
    lo ≤ pyInt q ∧ pyInt q ≤ hi := by
  unfold pyInt
  by_cases hq : 0 ≤ q
  · rw [if_pos hq]
    refine ⟨Int.le_floor.mpr h0, ?_⟩
    have : (⌊q⌋ : ℚ) ≤ (hi : ℚ) := le_trans (Int.floor_le q) h1
    exact_mod_cast this
  · rw [if_neg hq]
    refine ⟨?_, Int.ceil_le.mpr h1⟩
    have : (lo : ℚ) ≤ (⌈q⌉ : ℚ) := le_trans h0 (Int.le_ceil q)
    exact_mod_cast this

/-! ### C1: the piecewise gradient formulas -/

/-- **C1.** For `0 ≤ progress < 0.5`, with `t = progress * 2`, the gradient
computation returns `(255, int(20 + 150 t), int(100 - 100 t))`; for
`0.5 ≤ progress < 1`, with `t = (progress - 0.5) * 2`, it returns
`(int(255 - 255 t), int(170 + 85 t), int(150 t))`; and `progress = 0`
yields exactly `(255, 20, 100)`. -/
theorem gradientColor_piecewise (p : ℚ) :
    (0 ≤ p → p < 1 / 2 →
      gradientColor p =
        ⟨255, pyInt (20 + 150 * (p * 2)), pyInt (100 - 100 * (p * 2))⟩) ∧
    (1 / 2 ≤ p → p < 1 →
      gradientColor p =
        ⟨pyInt (255 - 255 * ((p - 1 / 2) * 2)),
         pyInt (170 + 85 * ((p - 1 / 2) * 2)),
         pyInt (150 * ((p - 1 / 2) * 2))⟩) ∧
    gradientColor 0 = ⟨255, 20, 100⟩ := by
  have h05 : (0.5 : ℚ) = 1 / 2 := by norm_num
  refine ⟨fun h0 h1 => ?_, fun h2 h3 => ?_, ?_⟩
  · have hlt : p < 0.5 := by rw [h05]; exact h1
    rw [gradientColor, if_pos hlt]
    congr 1
    · have hr : 255 - p * 2 * 0 = (255 : ℚ) := by ring
      rw [hr, pyInt_eq_floor (by norm_num)]; norm_num
    · congr 1; ring
    · congr 1; ring
  · have hge : ¬ p < 0.5 := by rw [h05]; exact not_lt.mpr h2
    rw [gradientColor, if_neg hge]
    show Color.mk _ _ _ = _
    rw [h05]
    congr 1
    · congr 1; ring
    · congr 1; ring
    · congr 1; ring
  · rw [gradientColor, if_pos (by norm_num : (0 : ℚ) < 0.5)]
    congr 1
    · rw [pyInt_eq_floor (by norm_num)]; norm_num
    · rw [pyInt_eq_floor (by norm_num)]; norm_num
    · rw [pyInt_eq_floor (by norm_num)]; norm_num

/-- Witness for C1: the theorem applied at the concrete inputs `1/4` and
`3/4`, with the hypotheses discharged there. -/
theorem gradientColor_piecewise_witness :
    ((0 : ℚ) ≤ 1 / 4 ∧ (1 / 4 : ℚ) < 1 / 2 ∧
      gradientColor (1 / 4) =
        ⟨255, pyInt (20 + 150 * ((1 / 4 : ℚ) * 2)),
         pyInt (100 - 100 * ((1 / 4 : ℚ) * 2))⟩) ∧
    ((1 / 2 : ℚ) ≤ 3 / 4 ∧ (3 / 4 : ℚ) < 1 ∧
      gradientColor (3 / 4) =
        ⟨pyInt (255 - 255 * (((3 / 4 : ℚ) - 1 / 2) * 2)),
         pyInt (170 + 85 * (((3 / 4 : ℚ) - 1 / 2) * 2)),
         pyInt (150 * (((3 / 4 : ℚ) - 1 / 2) * 2))⟩) :=
  ⟨⟨by norm_num, by norm_num,
      (gradientColor_piecewise (1 / 4)).1 (by norm_num) (by norm_num)⟩,
   ⟨by norm_num, by norm_num,
      (gradientColor_piecewise (3 / 4)).2.1 (by norm_num) (by norm_num)⟩⟩

/-! ### C4: channel ranges by construction, no clamping -/

/-- **C4.** For every `progress ∈ [0, 1)`, each channel of the computed
color lies in `[0, 255]` by the piecewise formulas and truncation alone
(the code contains no clamping step: `gradientColor` is exactly the
truncated arithmetic). -/
theorem gradientColor_channels_in_range (p : ℚ) (h0 : 0 ≤ p) (h1 : p < 1) :
    (0 ≤ (gradientColor p).r ∧ (gradientColor p).r ≤ 255) ∧
    (0 ≤ (gradientColor p).g ∧ (gradientColor p).g ≤ 255) ∧
    (0 ≤ (gradientColor p).b ∧ (gradientColor p).b ≤ 255) := by
  have h05 : (0.5 : ℚ) = 1 / 2 := by norm_num
  rcases lt_or_le p (1 / 2) with h | h
  · have hcolor : gradientColor p =
        ⟨pyInt (255 - p * 2 * 0), pyInt (20 + p * 2 * 150),
         pyInt (100 - p * 2 * 100)⟩ := by
      rw [gradientColor, if_pos (by rw [h05]; exact h)]
    rw [hcolor]
    exact ⟨pyInt_bounds (by push_cast; linarith) (by push_cast; linarith),
           pyInt_bounds (by push_cast; linarith) (by push_cast; linarith),
           pyInt_bounds (by push_cast; linarith) (by push_cast; linarith)⟩
  · have hcolor : gradientColor p =
        ⟨pyInt (255 - (p - 0.5) * 2 * 255), pyInt (170 + (p - 0.5) * 2 * 85),
         pyInt (0 + (p - 0.5) * 2 * 150)⟩ := by
      rw [gradientColor, if_neg (by rw [h05]; exact not_lt.mpr h)]
    rw [hcolor, h05]
    exact ⟨pyInt_bounds (by push_cast; linarith) (by push_cast; linarith),
           pyInt_bounds (by push_cast; linarith) (by push_cast; linarith),
           pyInt_bounds (by push_cast; linarith) (by push_cast; linarith)⟩

/-- Witness for C4: the theorem applied at the concrete input `7/10`. -/
theorem gradientColor_channels_in_range_witness :
    (0 : ℚ) ≤ 7 / 10 ∧ (7 / 10 : ℚ) < 1 ∧
    ((0 ≤ (gradientColor (7 / 10)).r ∧ (gradientColor (7 / 10)).r ≤ 255) ∧
     (0 ≤ (gradientColor (7 / 10)).g ∧ (gradientColor (7 / 10)).g ≤ 255) ∧
     (0 ≤ (gradientColor (7 / 10)).b ∧ (gradientColor (7 / 10)).b ≤ 255)) :=
  ⟨by norm_num, by norm_num,
   gradientColor_channels_in_range (7 / 10) (by norm_num) (by norm_num)⟩

/-! ### C8: purity / determinism of the gradient -/

/-- **C8.** The gradient color computation is a pure deterministic function
of `progress`: evaluations at equal inputs give equal `(r, g, b)` triples
(the embedding is a function with no other arguments, so no hidden state or
randomness can influence the result). -/
theorem gradientColor_deterministic (p q : ℚ) (h : p = q) :
    gradientColor p = gradientColor q := by rw [h]

/-- Witness for C8: the theorem applied at the concrete input `1/3`. -/
theorem gradientColor_deterministic_witness :
    (1 / 3 : ℚ) = 1 / 3 ∧ gradientColor (1 / 3) = gradientColor (1 / 3) :=
  ⟨rfl, gradientColor_deterministic (1 / 3) (1 / 3) rfl⟩

/-! ### C9: continuity of the ramp at the branch boundary -/

/-- **C9.** At `progress = 0.5` exactly the else branch runs with `t = 0`
and returns exactly `(255, 170, 0)`, and this equals the one-sided limit,
as `progress → 0.5⁻`, of the real-valued formulas of the `progress < 0.5`
branch: the orange midpoint the spec states only as a limit is attained
exactly by the code. -/
theorem gradientColor_continuous_at_half (ε : ℚ) (hε : 0 < ε) :
    gradientColor (1 / 2) = ⟨255, 170, 0⟩ ∧
    ∃ δ : ℚ, 0 < δ ∧ ∀ p : ℚ, 1 / 2 - δ < p → p < 1 / 2 →
      |pinkToOrangeR p - 255| < ε ∧ |pinkToOrangeG p - 170| < ε ∧
      |pinkToOrangeB p - 0| < ε := by
  constructor
  · rw [gradientColor, if_neg (by norm_num : ¬ (1 / 2 : ℚ) < 0.5)]
    show Color.mk _ _ _ = _
    norm_num [pyInt]
  · refine ⟨ε / 300, by positivity, fun p hp1 hp2 => ?_⟩
    unfold pinkToOrangeR pinkToOrangeG pinkToOrangeB
    refine ⟨?_, ?_, ?_⟩
    · have hr : (255 : ℚ) - p * 2 * 0 - 255 = 0 := by ring
      rw [hr, abs_zero]; exact hε
    · rw [abs_lt]; constructor <;> linarith
    · rw [abs_lt]; constructor <;> linarith

/-- Witness for C9: the theorem applied at the concrete tolerance `ε = 1`. -/
theorem gradientColor_continuous_at_half_witness :
    (0 : ℚ) < 1 ∧ gradientColor (1 / 2) = ⟨255, 170, 0⟩ :=
  ⟨by norm_num, (gradientColor_continuous_at_half 1 (by norm_num)).1⟩

/-! ### C3: the font point size (corrected) -/

/-- **C3, counterexample.** At the listed icon size 58 the code computes
`int(58 * 0.7) = 40`, while round-to-nearest of `58 * 0.7 = 40.6` is 41:
the claimed `font_size = round(size * 0.7)` is false on the code. -/
theorem fontSize_ne_round_at_58 :
    ¬ ((fontSize 58 : ℤ) = round ((58 : ℚ) * (7 / 10))) := by
  norm_num [round_eq]
  decide

/-- **C3, amended.** For every icon size in the spec list, the font point
size used when attempting to load the named font is `int(size * 0.7)` under
CPython float semantics — truncation toward zero of the binary64-rounded
product — giving 28, 42, 40, 60, 56, 84, 125, 716 for the eight listed
sizes (not round-to-nearest, which differs at sizes 58, 87, 180 and 1024);
the measurement fallback assumes exactly this same `(font_size, font_size)`
glyph dimension. -/
theorem fontSize_truncated_values :
    icon_sizes.map (fun pr => fontSize pr.2) = [28, 42, 40, 60, 56, 84, 125, 716] ∧
    ∀ (env : Env) (font_size : Nat) (font : Font), env.hasTextsize = false →
      textDims env font_size font = (font_size, font_size) := by
  refine ⟨by decide, fun env font_size font h => ?_⟩
  simp [textDims, h]

/-- Witness for C3 (amended): the fallback conjunct applied at the concrete
environment without the measurement API. -/
theorem fontSize_truncated_values_witness :
    envNoFontNoMeasure.hasTextsize = false ∧
    textDims envNoFontNoMeasure 40 Font.default = (40, 40) :=
  ⟨rfl, fontSize_truncated_values.2 envNoFontNoMeasure 40 Font.default rfl⟩

/-! ### C7: centering by floor division -/

/-- **C7.** The glyph draw position is
`((size - text_width) // 2, (size - text_height) // 2)` with Python floor
division: both coordinates equal the floor of the exact halved difference. -/
theorem position_is_floor_halving (size text_width text_height : ℤ) :
    position size text_width text_height =
      (⌊((size : ℚ) - (text_width : ℚ)) / 2⌋,
       ⌊((size : ℚ) - (text_height : ℚ)) / 2⌋) := by
  have key : ∀ a : ℤ, a.fdiv 2 = ⌊((a : ℚ)) / 2⌋ := by
    intro a
    rw [Int.fdiv_eq_ediv a (by norm_num)]
    have h := Rat.floor_intCast_div_natCast a 2
    simpa using h.symm
  unfold position
  rw [key (size - text_width), key (size - text_height)]
  push_cast
  rfl

/-! ### C2: only the last scanline's color survives -/

lemma foldl_drawFill_last (mask : Int × Int → Bool) (color : Int → Color)
    (l : List Int) (a : Int) (img : Image) (p : Int × Int) (hp : mask p = true) :
    (((l ++ [a]).foldl (fun im y => drawFill mask (color y) im) img)).pixel p =
      color a := by
  rw [List.foldl_append]
  simp [drawFill, hp]

/-- **C2.** For `text_height ≥ 1`, the scanline loop redraws the full glyph
once per scanline with one flat color, each pass overwriting the previous,
so every glyph pixel of the final raster carries exactly the gradient color
of the last scanline, `progress = (text_height - 1) / text_height`; in
particular the final glyph is solid single-colored. -/
theorem gradientTextLoop_last_scanline_wins (mask : Int × Int → Bool)
    (y0 : Int) (text_height : ℕ) (img : Image) (hh : 1 ≤ text_height) :
    (∀ p, mask p = true →
      (gradientTextLoop mask y0 text_height img).pixel p =
        gradientColor (((text_height : ℚ) - 1) / (text_height : ℚ))) ∧
    (∀ p q, mask p = true → mask q = true →
      (gradientTextLoop mask y0 text_height img).pixel p =
        (gradientTextLoop mask y0 text_height img).pixel q) := by
  obtain ⟨n, rfl⟩ : ∃ n, text_height = n + 1 :=
    ⟨text_height - 1, (Nat.succ_pred_eq_of_pos hh).symm⟩
  have key : ∀ p, mask p = true →
      (gradientTextLoop mask y0 (n + 1) img).pixel p =
        gradientColor ((((n + 1 : ℕ) : ℚ) - 1) / ((n + 1 : ℕ) : ℚ)) := by
    intro p hp
    unfold gradientTextLoop
    rw [List.range_succ, List.map_append]
    simp only [List.map_cons, List.map_nil]
    rw [foldl_drawFill_last mask
      (fun y => gradientColor (((y : ℚ) - (y0 : ℚ)) / (((n + 1 : ℕ)) : ℚ)))
      _ _ img p hp]
    congr 1
    push_cast
    ring
  exact ⟨key, fun p q hp hq => by rw [key p hp, key q hq]⟩

/-- Witness for C2: the theorem applied at a concrete two-scanline loop on
a concrete mask, image and pixel. -/
theorem gradientTextLoop_last_scanline_wins_witness :
    1 ≤ 2 ∧ (fun p : Int × Int => decide (p.1 = 0)) (0, 0) = true ∧
    (gradientTextLoop (fun p : Int × Int => decide (p.1 = 0)) 0 2
        (imageNew "RGBA" 4 4 ⟨0, 0, 0⟩)).pixel (0, 0) =
      gradientColor ((((2 : ℕ) : ℚ) - 1) / ((2 : ℕ) : ℚ)) :=
  ⟨by norm_num, by decide,
   (gradientTextLoop_last_scanline_wins (fun p : Int × Int => decide (p.1 = 0)) 0 2
       (imageNew "RGBA" 4 4 ⟨0, 0, 0⟩) (by norm_num)).1 (0, 0) (by decide)⟩

/-! ### C5: the batch output -/

lemma foldl_drawFill_dims (mask : Int × Int → Bool) (color : Int → Color)
    (l : List Int) (img : Image) :
    (l.foldl (fun im y => drawFill mask (color y) im) img).mode = img.mode ∧
    (l.foldl (fun im y => drawFill mask (color y) im) img).width = img.width ∧
    (l.foldl (fun im y => drawFill mask (color y) im) img).height = img.height := by
  induction l generalizing img with
  | nil => exact ⟨rfl, rfl, rfl⟩
  | cons a l ih =>
    simp only [List.foldl_cons]
    exact ih (drawFill mask (color a) img)

lemma renderIcon_dims (env : Env) (size : ℕ) :
    (renderIcon env size).mode = "RGBA" ∧ (renderIcon env size).width = size ∧
    (renderIcon env size).height = size := by
  simp only [renderIcon, gradientTextLoop]
  exact foldl_drawFill_dims _ _ _ _

/-- **C5.** One full run of the batch produces exactly 8 files, named and
sized `Icon-40.png` (40) through `Icon-1024.png` (1024) in the listed
order under `icons/`, and every produced image is a square RGBA raster
with width = height = size, whatever the PIL environment. -/
theorem generateIcons_output (env : Env) :
    (generateIcons env).length = 8 ∧
    (generateIcons env).map Prod.fst =
      ["icons/Icon-40.png", "icons/Icon-60.png", "icons/Icon-58.png",
       "icons/Icon-87.png", "icons/Icon-80.png", "icons/Icon-120.png",
       "icons/Icon-180.png", "icons/Icon-1024.png"] ∧
    (generateIcons env).map (fun pr => (pr.2.mode, pr.2.width, pr.2.height)) =
      [("RGBA", 40, 40), ("RGBA", 60, 60), ("RGBA", 58, 58), ("RGBA", 87, 87),
       ("RGBA", 80, 80), ("RGBA", 120, 120), ("RGBA", 180, 180),
       ("RGBA", 1024, 1024)] := by
  have key : ∀ s : ℕ,
      ((renderIcon env s).mode, (renderIcon env s).width, (renderIcon env s).height) =
        ("RGBA", s, s) := by
    intro s
    obtain ⟨h1, h2, h3⟩ := renderIcon_dims env s
    rw [h1, h2, h3]
  refine ⟨rfl, rfl, ?_⟩
  simp only [generateIcons, icon_sizes, List.map_cons, List.map_nil]
  rw [key 40, key 60, key 58, key 87, key 80, key 120, key 180, key 1024]

/-! ### C6: non-fatal font and measurement fallbacks -/

/-- **C6.** Failure to load the named font is non-fatal: the try/except
substitutes the default font, and when the `textsize` API is absent the
renderer substitutes `(font_size, font_size)`; in both cases rendering of
the same icon completes (the render function is total and still yields the
full-size RGBA image), so no error propagates out of the iteration. -/
theorem fallbacks_are_nonfatal (env : Env) (font_size : Nat) (font : Font)
    (size : Nat) :
    (env.arialAvailable = false →
      resolveFont env.arialAvailable font_size = Font.default) ∧
    (env.hasTextsize = false →
      textDims env font_size font = (font_size, font_size)) ∧
    ((renderIcon env size).mode = "RGBA" ∧ (renderIcon env size).width = size ∧
     (renderIcon env size).height = size) := by
  refine ⟨fun h => ?_, fun h => ?_, renderIcon_dims env size⟩
  · rw [h]; rfl
  · simp [textDims, h]

/-- Witness for C6: the theorem applied at the concrete environment with
neither the font nor the measurement API, at size 40. -/
theorem fallbacks_are_nonfatal_witness :
    envNoFontNoMeasure.arialAvailable = false ∧
    envNoFontNoMeasure.hasTextsize = false ∧
    resolveFont envNoFontNoMeasure.arialAvailable 28 = Font.default ∧
    textDims envNoFontNoMeasure 28 Font.default = (28, 28) ∧
    (renderIcon envNoFontNoMeasure 40).width = 40 :=
  ⟨rfl, rfl,
   (fallbacks_are_nonfatal envNoFontNoMeasure 28 Font.default 40).1 rfl,
   (fallbacks_are_nonfatal envNoFontNoMeasure 28 Font.default 40).2.1 rfl,
   (fallbacks_are_nonfatal envNoFontNoMeasure 28 Font.default 40).2.2.2.1⟩

/-! ### C10: zero text height runs zero scanlines -/

/-- **C10.** When the measured `text_height` is 0 the scanline loop runs
zero iterations (it is the identity on the image), so the
`(y - position[1]) / text_height` expression is never evaluated and no
division by zero occurs; the glyph is simply not drawn — the rendered icon
is exactly the background-only image — and the iteration still completes. -/
theorem zero_text_height_is_safe (env : Env) (size : Nat)
    (h : (textDims env (fontSize size)
            (resolveFont env.arialAvailable (fontSize size))).2 = 0) :
    (∀ (mask : Int × Int → Bool) (y0 : Int) (img : Image),
       gradientTextLoop mask y0 0 img = img) ∧
    renderIcon env size =
      drawFill (env.roundedRegion size (size / 5)) ⟨0, 0, 0⟩
        (imageNew "RGBA" size size ⟨0, 0, 0⟩) := by
  refine ⟨fun mask y0 img => rfl, ?_⟩
  simp only [renderIcon]
  rw [h]
  rfl

/-- Witness for C10: the theorem applied at the concrete environment whose
measurement reports height 0, at size 40. -/
theorem zero_text_height_is_safe_witness :
    (textDims envZeroHeight (fontSize 40)
        (resolveFont envZeroHeight.arialAvailable (fontSize 40))).2 = 0 ∧
    renderIcon envZeroHeight 40 =
      drawFill (envZeroHeight.roundedRegion 40 (40 / 5)) ⟨0, 0, 0⟩
        (imageNew "RGBA" 40 40 ⟨0, 0, 0⟩) :=
  ⟨rfl, (zero_text_height_is_safe envZeroHeight 40 rfl).2⟩

end GenerateIcons
